import Mathlib

/-!
Shallow embedding of the session/state controller of `src/start.py`
(class `GeoAnalysisApp`): the four-state machine, the periodic
capture-and-send cycle, the final-analysis worker together with its
reply parser, and the marker-plotting routine.  External collaborators
(the generative-model client, the screen capturer, the standard-library
JSON decoder, the map widget) appear as parameters of the embedded
functions or as fields of explicit outcome records.
-/

/-- Controller states (`self.state`, start.py line 117:
`"IDLE"`, `"RECORDING"`, `"PAUSED"`, `"ANALYZING"`). -/
inductive Mode where
  | IDLE
  | RECORDING
  | PAUSED
  | ANALYZING
  deriving DecidableEq

/-- Shared mutable controller state (start.py lines 115-143):
`self.chat_session` (opaque handle, `None` when absent),
`self.captured_frames` (frames are opaque, modelled as `Nat`),
`self.frame_count`, and `self.state`. -/
structure AppState where
  chat_session : Option Nat
  captured_frames : List Nat
  frame_count : Nat
  state : Mode
  deriving DecidableEq

/-- Initial state built in `__init__` (start.py lines 115-117, 143). -/
def initialState : AppState :=
  { chat_session := none, captured_frames := [], frame_count := 0, state := Mode.IDLE }

/-- Embedding of `start_session` (start.py lines 249-267).  The method has
no state guard of its own; if no session handle exists a fresh one is
created (the fresh handle produced by `start_chat` is a parameter `h`)
and the frame sequence and counter are reset, otherwise the existing
session is resumed unchanged; in both cases the state becomes RECORDING. -/
def start_session (h : Nat) (s : AppState) : AppState :=
  let s1 :=
    if s.chat_session.isNone then
      { s with chat_session := some h, captured_frames := [], frame_count := 0 }
    else s
  { s1 with state := Mode.RECORDING }

/-- Embedding of `toggle_pause_resume` (start.py lines 269-285):
RECORDING becomes PAUSED, PAUSED becomes RECORDING, anything else is
left alone. -/
def toggle_pause_resume (s : AppState) : AppState :=
  match s.state with
  | Mode.RECORDING => { s with state := Mode.PAUSED }
  | Mode.PAUSED => { s with state := Mode.RECORDING }
  | _ => s

/-- Outcome of one run of `_send_frame_worker`: the resulting state and
how many sends to the Session Client were attempted during the run. -/
structure CycleOutcome where
  st : AppState
  sendsAttempted : Nat
  deriving DecidableEq

/-- Embedding of `_send_frame_worker` (start.py lines 307-337).
`captured` is the result of `capture_screen_to_image` (`none` on capture
failure) and `sendOk` tells whether `chat_session.send_message` returned
normally or raised.  The worker returns early when the state is not
RECORDING or no session exists; on capture failure nothing happens; on a
successful send the frame is appended and the counter incremented; on a
raising send the state is left untouched (the except-block only logs). -/
def send_frame_worker (captured : Option Nat) (sendOk : Bool) (s : AppState) : CycleOutcome :=
  if s.state ≠ Mode.RECORDING ∨ s.chat_session = none then
    { st := s, sendsAttempted := 0 }
  else
    match captured with
    | none => { st := s, sendsAttempted := 0 }
    | some img =>
      if sendOk then
        { st := { s with captured_frames := s.captured_frames ++ [img],
                         frame_count := s.frame_count + 1 },
          sendsAttempted := 1 }
      else
        { st := s, sendsAttempted := 1 }

/-- Embedding of the synchronous part of `stop_and_analyze`
(start.py lines 340-358): guarded on state RECORDING or PAUSED, it moves
the state to ANALYZING (the analysis itself runs in a separate worker,
embedded below as `final_analysis_worker`). -/
def stop_and_analyze (s : AppState) : AppState :=
  if s.state = Mode.RECORDING ∨ s.state = Mode.PAUSED then
    { s with state := Mode.ANALYZING }
  else s

/-- Outcome of `clear_history`: the resulting state and whether the
user-visible warning dialog was shown. -/
structure ClearOutcome where
  st : AppState
  warned : Bool
  deriving DecidableEq

/-- Embedding of `clear_history` (start.py lines 485-514).  The guard is
`if self.state not in ["IDLE", "ANALYZING"]`: in RECORDING or PAUSED the
command is rejected with a `messagebox.showwarning` and nothing changes;
otherwise the session handle is destroyed, the frame sequence emptied,
the counter reset to 0 and the state set to IDLE. -/
def clear_history (s : AppState) : ClearOutcome :=
  if s.state ≠ Mode.IDLE ∧ s.state ≠ Mode.ANALYZING then
    { st := s, warned := true }
  else
    { st := { chat_session := none, captured_frames := [], frame_count := 0,
              state := Mode.IDLE },
      warned := false }

/-- JSON values as produced by the standard library's `json.loads`
(the decoder itself is an external collaborator and is passed to the
worker as a function parameter).  Numbers are modelled as rationals;
object fields as an association list with distinct keys, as produced
from a JSON text. -/
inductive JValue where
  | null
  | bool (b : Bool)
  | num (q : Rat)
  | str (s : List Char)
  | arr (xs : List JValue)
  | obj (fields : List (List Char × JValue))

/-- Lookup modelling Python's `dict.get`: `none` stands for the Python
`None` returned when the key is missing. -/
def objGet (fields : List (List Char × JValue)) (k : List Char) : Option JValue :=
  match fields with
  | [] => none
  | (k1, v) :: rest => if k1 = k then some v else objGet rest k

/-- Python's `str.strip` whitespace set (space, tab, newline, carriage
return, vertical tab, form feed). -/
def isPySpace (c : Char) : Bool :=
  c = ' ' || c = '\t' || c = '\n' || c = '\r' || c = '\x0b' || c = '\x0c'

/-- Embedding of Python's `str.strip()`: drop leading and trailing
whitespace. -/
def pyStrip (s : List Char) : List Char :=
  ((s.dropWhile isPySpace).reverse.dropWhile isPySpace).reverse

/-- Accumulated value of a digit string, e.g. `['4','2'] ↦ 42`. -/
def digitsVal (s : List Char) : Nat :=
  s.foldl (fun a c => a * 10 + (c.toNat - '0'.toNat)) 0

/-- Decimal forms accepted by Python's `float()` after sign removal:
`"12"`, `"12."`, `"12.5"`, `".5"` (exponent, `inf` and `nan` forms are
not modelled; no claim depends on them). -/
def parseUnsignedDecimal (s : List Char) : Option Rat :=
  match s.splitOn '.' with
  | [a] =>
    if !a.isEmpty && a.all Char.isDigit then some (digitsVal a : Rat) else none
  | [a, b] =>
    if !(a ++ b).isEmpty && a.all Char.isDigit && b.all Char.isDigit then
      some ((digitsVal (a ++ b) : Rat) / ((10 : Rat) ^ b.length))
    else none
  | _ => none

/-- Embedding of Python's `float()` applied to a string: surrounding
whitespace is ignored and an optional sign precedes the decimal form. -/
def parseFloatStr (s : List Char) : Option Rat :=
  match pyStrip s with
  | '+' :: r => parseUnsignedDecimal r
  | '-' :: r => (parseUnsignedDecimal r).map Neg.neg
  | t => parseUnsignedDecimal t

/-- Embedding of Python's `float()` on a decoded JSON value: numbers and
booleans coerce, numeric strings parse, everything else (`None`, lists,
objects, non-numeric strings) raises `TypeError`/`ValueError`. -/
def coerceFloat : JValue → Option Rat
  | JValue.num q => some q
  | JValue.bool b => some (if b then 1 else 0)
  | JValue.str s => parseFloatStr s
  | _ => none

/-- Result of Python's `float(item.get(key))` on an optional lookup: a
missing key yields Python `None` and `float(None)` raises, giving
`none` here. -/
def floatOfLookup : Option JValue → Option Rat
  | none => none
  | some v => coerceFloat v

/-- Key strings of the structured records (start.py lines 420-421). -/
def latKey : List Char := "latitude".toList

/-- Key string `longitude`. -/
def lonKey : List Char := "longitude".toList

/-- Key string `radius_km` (spec wire format). -/
def radiusKey : List Char := "radius_km".toList

/-- Key string `confidence` (spec wire format). -/
def confidenceKey : List Char := "confidence".toList

/-- Key string `reason` (spec wire format). -/
def reasonKey : List Char := "reason".toList

/-- Coordinates of one record as computed in the loop body of
`plot_markers_on_map` (start.py lines 419-421): `.get` on a non-object
raises `AttributeError`, `float` of a missing or non-numeric value
raises, and any of these exceptions skips the record, giving `none`. -/
def markerOf (item : JValue) : Option (Rat × Rat) :=
  match item with
  | JValue.obj fields =>
    match floatOfLookup (objGet fields latKey), floatOfLookup (objGet fields lonKey) with
    | some lat, some lon => some (lat, lon)
    | _, _ => none
  | _ => none

/-- Coordinates of a record that is known to be plottable (defaults to
`(0, 0)` on an unplottable record; only used to state theorems). -/
def coordsOf (item : JValue) : Rat × Rat :=
  (markerOf item).getD (0, 0)

/-- Status message shown in the coordinates tab by
`plot_markers_on_map` (start.py lines 435, 438, 441). -/
inductive PlotMsg where
  | plottedCount (n : Nat)
  | noValidCoords
  | emptyOrNotList
  deriving DecidableEq

/-- Outcome of `plot_markers_on_map`: the ranked markers placed on the
map in order, the position the view was centered on (the first
successfully plotted record), the zoom level set, and the status
message. -/
structure PlotOutcome where
  markers : List (Nat × Rat × Rat)
  center : Option (Rat × Rat)
  zoom : Option Nat
  msg : PlotMsg
  deriving DecidableEq

/-- The `for i, item in enumerate(data)` loop of `plot_markers_on_map`
(start.py lines 418-433): records whose coordinates raise are skipped
individually, a plotted record is ranked `i + 1`. -/
def plotLoop : List JValue → Nat → List (Nat × Rat × Rat)
  | [], _ => []
  | item :: rest, i =>
    match markerOf item with
    | some m => (i + 1, m) :: plotLoop rest (i + 1)
    | none => plotLoop rest (i + 1)

/-- Embedding of `plot_markers_on_map` (start.py lines 411-441):
non-list or empty data reports "empty or not a list"; a non-empty list
is walked by `plotLoop`; with at least one plotted marker the view is
centered on the first one at zoom 10 and the plotted count is reported,
otherwise "no valid coordinates" is reported. -/
def plot_markers_on_map (data : JValue) : PlotOutcome :=
  match data with
  | JValue.arr (x :: xs) =>
    match plotLoop (x :: xs) 0 with
    | [] => { markers := [], center := none, zoom := none, msg := PlotMsg.noValidCoords }
    | m :: rest =>
      { markers := m :: rest, center := some m.2, zoom := some 10,
        msg := PlotMsg.plottedCount (m :: rest).length }
  | _ => { markers := [], center := none, zoom := none, msg := PlotMsg.emptyOrNotList }

/-- First index at or after `i` where `pat` occurs in `hay`, scanning
left to right (the recursion that realises Python's `str.find`). -/
def findFrom (pat : List Char) (hay : List Char) (i : Nat) : Option Nat :=
  if pat.isPrefixOf hay then some i
  else
    match hay with
    | [] => none
    | _ :: t => findFrom pat t (i + 1)

/-- Embedding of Python's `str.find`: index of the first occurrence of
`pat` in `hay` (`none` for Python's `-1`). -/
def findSub (pat : List Char) (hay : List Char) : Option Nat :=
  findFrom pat hay 0

/-- The literal start delimiter (start.py line 394). -/
def jsonStartMarker : List Char := "<<<JSON_START>>>".toList

/-- The literal end delimiter (start.py line 395). -/
def jsonEndMarker : List Char := "<<<JSON_END>>>".toList

/-- The delimiter test of `_final_analysis_worker` (start.py
lines 398-401): both markers must be found and the start index must be
strictly below the end index; on success the pair of indices is
returned. -/
def delimitersOk (t : List Char) : Option (Nat × Nat) :=
  match findSub jsonStartMarker t, findSub jsonEndMarker t with
  | some si, some ei => if si < ei then some (si, ei) else none
  | _, _ => none

/-- Embedding of `full_text[:start_index].strip()` (start.py line 402). -/
def analysisPartOf (t : List Char) (si : Nat) : List Char :=
  pyStrip (t.take si)

/-- Embedding of
`full_text[start_index + len(json_start_marker):end_index].strip()`
(start.py line 403). -/
def jsonSpanOf (t : List Char) (si ei : Nat) : List Char :=
  pyStrip ((t.drop (si + jsonStartMarker.length)).take
    (ei - (si + jsonStartMarker.length)))

/-- What ends up in the Analysis tab after the worker finishes. -/
inductive AnalysisMsg where
  | noSessionError
  | noFramesError
  | apiError
  | analysisText (t : List Char)
  deriving DecidableEq

/-- What ends up in the coordinates channel (the status label under the
map) after the worker finishes; `decodeError` carries the raw block
`json_string` embedded verbatim in the reported message (start.py
line 449). -/
inductive CoordsMsg where
  | noSessionError
  | noFramesError
  | apiError
  | noStructuredData
  | decodeError (raw : List Char)
  | plotted (p : PlotOutcome)
  deriving DecidableEq

/-- The reply-parsing section of `_final_analysis_worker` (start.py
lines 391-462), factored over the JSON decoder `decode` (an external
collaborator; `none` models a raised `json.JSONDecodeError`): with
well-placed delimiters the pre-delimiter text (stripped) goes to the
analysis channel and the decoded block is plotted, or on decode failure
the raw block is reported; without them the full reply (unstripped, the
`analysis_part = full_text` default of line 392) goes to the analysis
channel and a no-structured-data warning to the coordinates channel. -/
def parseReply (decode : List Char → Option JValue) (full_text : List Char) :
    AnalysisMsg × CoordsMsg :=
  match delimitersOk full_text with
  | some (si, ei) =>
    match decode (jsonSpanOf full_text si ei) with
    | some j =>
      (AnalysisMsg.analysisText (analysisPartOf full_text si),
       CoordsMsg.plotted (plot_markers_on_map j))
    | none =>
      (AnalysisMsg.analysisText (analysisPartOf full_text si),
       CoordsMsg.decodeError (jsonSpanOf full_text si ei))
  | none => (AnalysisMsg.analysisText full_text, CoordsMsg.noStructuredData)

/-- Result of the final send to the Session Client: either the call
raised (network/transport/quota) or it returned a full text reply. -/
inductive SendOutcome where
  | apiError
  | reply (text : List Char)

/-- Everything observable about one run of `_final_analysis_worker`:
the state after `_finalize_analysis_ui` ran, whether the Session Client
was invoked, and the two channel messages. -/
structure FinalOutcome where
  st : AppState
  clientInvoked : Bool
  analysisMsg : AnalysisMsg
  coordsMsg : CoordsMsg

/-- Embedding of `_finalize_analysis_ui` (start.py lines 477-482): the
state returns to IDLE, nothing else of the session is touched. -/
def finalize_analysis_ui (s : AppState) : AppState :=
  { s with state := Mode.IDLE }

/-- Embedding of `_final_analysis_worker` (start.py lines 360-475).
The two precondition checks (no session handle, empty frame sequence)
report the corresponding error on both channels and finalize without
touching the Session Client; otherwise the combined turn is sent, a
raising send reports an analysis error on both channels, and a reply is
parsed by `parseReply`; every path runs `_finalize_analysis_ui` (the
`finally` block). -/
def final_analysis_worker (decode : List Char → Option JValue)
    (send : SendOutcome) (s : AppState) : FinalOutcome :=
  if s.chat_session = none then
    { st := finalize_analysis_ui s, clientInvoked := false,
      analysisMsg := AnalysisMsg.noSessionError, coordsMsg := CoordsMsg.noSessionError }
  else
    match s.captured_frames with
    | [] =>
      { st := finalize_analysis_ui s, clientInvoked := false,
        analysisMsg := AnalysisMsg.noFramesError, coordsMsg := CoordsMsg.noFramesError }
    | _ :: _ =>
      match send with
      | SendOutcome.apiError =>
        { st := finalize_analysis_ui s, clientInvoked := true,
          analysisMsg := AnalysisMsg.apiError, coordsMsg := CoordsMsg.apiError }
      | SendOutcome.reply full_text =>
        { st := finalize_analysis_ui s, clientInvoked := true,
          analysisMsg := (parseReply decode full_text).1,
          coordsMsg := (parseReply decode full_text).2 }

/-- A record of the spec's structured wire format (§6): an object whose
`latitude`, `longitude` and `radius_km` are numbers, whose `confidence`
is one of the three fixed strings, and whose `reason` is a string.
This predicate states the hypothesis of the parsing round-trip claim;
the code itself never checks it. -/
def specValidRecord (v : JValue) : Bool :=
  match v with
  | JValue.obj f =>
    (match objGet f latKey with | some (JValue.num _) => true | _ => false) &&
    (match objGet f lonKey with | some (JValue.num _) => true | _ => false) &&
    (match objGet f radiusKey with | some (JValue.num _) => true | _ => false) &&
    (match objGet f confidenceKey with
      | some (JValue.str c) =>
        c = "High".toList || c = "Medium".toList || c = "Low".toList
      | _ => false) &&
    (match objGet f reasonKey with | some (JValue.str _) => true | _ => false)
  | _ => false

/-- One presenter-originated or timer-originated operation on the
controller, with the externally determined inputs each one consumes:
`start` carries the fresh handle a `start_chat` would produce, `cycle`
the capture result and send success of one capture-and-send run,
`analyze` the JSON decoder and the final send outcome. -/
inductive Cmd where
  | start (h : Nat)
  | toggle
  | cycle (captured : Option Nat) (sendOk : Bool)
  | stopCmd
  | analyze (decode : List Char → Option JValue) (send : SendOutcome)
  | clear

/-- State effect of one operation, built from the embedded handlers. -/
def applyCmd (s : AppState) : Cmd → AppState
  | Cmd.start h => start_session h s
  | Cmd.toggle => toggle_pause_resume s
  | Cmd.cycle c ok => (send_frame_worker c ok s).st
  | Cmd.stopCmd => stop_and_analyze s
  | Cmd.analyze d snd => (final_analysis_worker d snd s).st
  | Cmd.clear => (clear_history s).st

/-- Run a sequence of operations from a state. -/
def runOps (s : AppState) (cs : List Cmd) : AppState :=
  cs.foldl applyCmd s

/-- The displayed-counter invariant: the frame counter equals the
length of the frame sequence. -/
def counterInv (s : AppState) : Prop :=
  s.frame_count = s.captured_frames.length

/-- Concrete reply for the round-trip witness (start index 2, end
index 20). -/
def tW3 : List Char := "AB<<<JSON_START>>>[]<<<JSON_END>>>".toList

/-- A concrete wire-format record with small numbers. -/
def recA : JValue :=
  JValue.obj [(latKey, JValue.num 1), (lonKey, JValue.num 2),
    (radiusKey, JValue.num 3), (confidenceKey, JValue.str "High".toList),
    (reasonKey, JValue.str "tower".toList)]

/-- A second concrete wire-format record. -/
def recB : JValue :=
  JValue.obj [(latKey, JValue.num 4), (lonKey, JValue.num 5),
    (radiusKey, JValue.num 6), (confidenceKey, JValue.str "Medium".toList),
    (reasonKey, JValue.str "bus".toList)]

/-- Concrete plotting record with a non-numeric latitude string, hence
unplottable. -/
def c4bad : JValue :=
  JValue.obj [(latKey, JValue.str "abc".toList), (lonKey, JValue.num 7)]

/-- Concrete plottable record paired with `c4bad`. -/
def c4good : JValue :=
  JValue.obj [(latKey, JValue.num 5), (lonKey, JValue.num 6)]

/-- Concrete reply with a truncated JSON block between valid delimiters
(start index 6, end index 26). -/
def tW6 : List Char := "Before<<<JSON_START>>>[1,2<<<JSON_END>>>".toList

/-- Concrete ANALYZING state with a session and one frame. -/
def s9analyzing : AppState :=
  { chat_session := some 2, captured_frames := [5], frame_count := 1,
    state := Mode.ANALYZING }

/-- Concrete IDLE state with a session and one frame. -/
def s9idle : AppState :=
  { chat_session := some 2, captured_frames := [5], frame_count := 1,
    state := Mode.IDLE }

/-- Which thread executes a statement: the Tk cooperative UI loop
(`main`) or a spawned worker thread (`background`).  A callback passed
to `root.after(0, ...)` from a worker runs on the main thread. -/
inductive ExecThread where
  | main
  | background
  deriving DecidableEq

/-- The shared mutable trio named by the spec: the frame sequence
(`self.captured_frames`), the frame counter (`self.frame_count`) and
the state flag (`self.state`). -/
inductive SharedVar where
  | frames
  | counter
  | stateFlag
  deriving DecidableEq

/-- Mutations of the shared trio performed by one run of
`_send_frame_worker`, tagged with the executing thread.  The statements
`self.captured_frames.append(img)` and `self.frame_count += 1`
(start.py lines 325-326) run directly on the spawned worker thread; the
only work marshalled back with `root.after` is `update_frame_count`
(line 328), which repaints a label and touches none of the trio. -/
def send_frame_worker_mutations (guardPassed captureOk sendOk : Bool) :
    List (ExecThread × SharedVar) :=
  if guardPassed && captureOk && sendOk then
    [(ExecThread.background, SharedVar.frames),
     (ExecThread.background, SharedVar.counter)]
  else []

/-- Mutations performed by `start_session` (start.py lines 249-267),
which runs as a button callback on the UI loop: without an existing
session it resets the frame sequence and counter, and it always sets
the state flag. -/
def start_session_mutations (hasSession : Bool) : List (ExecThread × SharedVar) :=
  (if hasSession then []
   else [(ExecThread.main, SharedVar.frames), (ExecThread.main, SharedVar.counter)]) ++
  [(ExecThread.main, SharedVar.stateFlag)]

/-- Mutations performed by `toggle_pause_resume` (start.py
lines 269-285), a button callback on the UI loop: the state flag flips
in RECORDING and PAUSED only. -/
def toggle_pause_resume_mutations (m : Mode) : List (ExecThread × SharedVar) :=
  match m with
  | Mode.RECORDING => [(ExecThread.main, SharedVar.stateFlag)]
  | Mode.PAUSED => [(ExecThread.main, SharedVar.stateFlag)]
  | _ => []

/-- Mutations performed by `stop_and_analyze` (start.py lines 340-358),
a button callback on the UI loop: past its guard it sets the state
flag. -/
def stop_and_analyze_mutations (guardPassed : Bool) : List (ExecThread × SharedVar) :=
  if guardPassed then [(ExecThread.main, SharedVar.stateFlag)] else []

/-- Mutations performed by `clear_history` (start.py lines 485-514), a
button callback on the UI loop: past its guard it resets the frame
sequence, the counter and the state flag. -/
def clear_history_mutations (guardRejected : Bool) : List (ExecThread × SharedVar) :=
  if guardRejected then []
  else [(ExecThread.main, SharedVar.frames), (ExecThread.main, SharedVar.counter),
        (ExecThread.main, SharedVar.stateFlag)]

/-- Mutations of the trio attributable to `_final_analysis_worker`
(start.py lines 360-475): the worker itself touches none of them; the
state flag is set by `_finalize_analysis_ui`, which every path posts to
the UI loop with `root.after(0, ...)` (lines 366, 371, 475), so that
write runs on the main thread. -/
def final_analysis_worker_mutations : List (ExecThread × SharedVar) :=
  [(ExecThread.main, SharedVar.stateFlag)]

lemma specValidRecord_markerOf {v : JValue} (h : specValidRecord v = true) :
    (markerOf v).isSome := by
  cases v with
  | obj f =>
    simp only [specValidRecord, Bool.and_eq_true] at h
    obtain ⟨⟨⟨⟨hlat, hlon⟩, _⟩, _⟩, _⟩ := h
    cases hla : objGet f latKey with
    | none => rw [hla] at hlat; simp at hlat
    | some vla =>
      cases hlo : objGet f lonKey with
      | none => rw [hlo] at hlon; simp at hlon
      | some vlo =>
        rw [hla] at hlat; rw [hlo] at hlon
        cases vla <;> simp at hlat
        cases vlo <;> simp at hlon
        simp [markerOf, hla, hlo, floatOfLookup, coerceFloat]
  | null => simp [specValidRecord] at h
  | bool b => simp [specValidRecord] at h
  | num q => simp [specValidRecord] at h
  | str s => simp [specValidRecord] at h
  | arr xs => simp [specValidRecord] at h

lemma markerOf_eq_coordsOf {v : JValue} (h : (markerOf v).isSome) :
    markerOf v = some (coordsOf v) := by
  cases hm : markerOf v with
  | none => rw [hm] at h; simp at h
  | some m => simp [coordsOf, hm]

lemma plotLoop_eq_filterMap (items : List JValue) (i : Nat) :
    plotLoop items i =
      (List.enumFrom i items).filterMap
        (fun pr => (markerOf pr.2).map (fun m => (pr.1 + 1, m))) := by
  induction items generalizing i with
  | nil => simp [plotLoop]
  | cons x xs ih =>
    cases hm : markerOf x <;>
      simp [plotLoop, hm, List.enumFrom, List.filterMap, ih (i + 1)]

lemma plotLoop_all_valid (items : List JValue) (i : Nat)
    (h : ∀ x ∈ items, (markerOf x).isSome) :
    plotLoop items i =
      (List.enumFrom i items).map (fun pr => (pr.1 + 1, coordsOf pr.2)) := by
  induction items generalizing i with
  | nil => simp [plotLoop]
  | cons x xs ih =>
    have hx := markerOf_eq_coordsOf (h x (List.mem_cons_self x xs))
    simp [plotLoop, hx, List.enumFrom,
      ih (i + 1) (fun y hy => h y (List.mem_cons_of_mem x hy))]

lemma plot_markers_arr_all_valid (items : List JValue)
    (h : ∀ x ∈ items, specValidRecord x = true) :
    (plot_markers_on_map (JValue.arr items)).markers =
      items.enum.map (fun pr => (pr.1 + 1, coordsOf pr.2)) := by
  have hv : ∀ x ∈ items, (markerOf x).isSome :=
    fun x hx => specValidRecord_markerOf (h x hx)
  have hp := plotLoop_all_valid items 0 hv
  cases items with
  | nil => simp [plot_markers_on_map, List.enum]
  | cons x xs =>
    simp only [List.enumFrom, List.map] at hp
    simp [plot_markers_on_map, hp, List.enum]

lemma plot_markers_markers_eq (items : List JValue) :
    (plot_markers_on_map (JValue.arr items)).markers =
      items.enum.filterMap (fun pr => (markerOf pr.2).map (fun m => (pr.1 + 1, m))) := by
  have hbase : (plot_markers_on_map (JValue.arr items)).markers = plotLoop items 0 := by
    cases items with
    | nil => rfl
    | cons x xs => cases hpl : plotLoop (x :: xs) 0 <;> simp [plot_markers_on_map, hpl]
  rw [hbase, plotLoop_eq_filterMap]
  rfl

lemma plot_markers_center_zoom (data : JValue) :
    (plot_markers_on_map data).center =
      ((plot_markers_on_map data).markers.head?).map (fun m => m.2) ∧
    (plot_markers_on_map data).zoom =
      ((plot_markers_on_map data).markers.head?).map (fun _ => 10) := by
  cases data with
  | arr items =>
    cases items with
    | nil => exact ⟨rfl, rfl⟩
    | cons x xs =>
      cases hpl : plotLoop (x :: xs) 0 <;> simp [plot_markers_on_map, hpl]
  | null => exact ⟨rfl, rfl⟩
  | bool b => exact ⟨rfl, rfl⟩
  | num q => exact ⟨rfl, rfl⟩
  | str s => exact ⟨rfl, rfl⟩
  | obj f => exact ⟨rfl, rfl⟩

lemma plot_markers_msg_plotted (items : List JValue)
    (hm : (plot_markers_on_map (JValue.arr items)).markers ≠ []) :
    (plot_markers_on_map (JValue.arr items)).msg =
      PlotMsg.plottedCount (plot_markers_on_map (JValue.arr items)).markers.length := by
  cases items with
  | nil => exact absurd rfl hm
  | cons x xs =>
    cases hpl : plotLoop (x :: xs) 0 with
    | nil => exact absurd (by simp [plot_markers_on_map, hpl]) hm
    | cons m rest => simp [plot_markers_on_map, hpl]

lemma plot_markers_msg_empty (data : JValue)
    (hm : (plot_markers_on_map data).markers = []) :
    (plot_markers_on_map data).msg = PlotMsg.noValidCoords ∨
    (plot_markers_on_map data).msg = PlotMsg.emptyOrNotList := by
  cases data with
  | arr items =>
    cases items with
    | nil => exact Or.inr rfl
    | cons x xs =>
      cases hpl : plotLoop (x :: xs) 0 with
      | nil => exact Or.inl (by simp [plot_markers_on_map, hpl])
      | cons m rest =>
        exfalso
        have hms : (plot_markers_on_map (JValue.arr (x :: xs))).markers = m :: rest := by
          simp [plot_markers_on_map, hpl]
        rw [hms] at hm
        exact absurd hm (by simp)
  | null => exact Or.inr rfl
  | bool b => exact Or.inr rfl
  | num q => exact Or.inr rfl
  | str s => exact Or.inr rfl
  | obj f => exact Or.inr rfl

lemma plot_markers_not_list (data : JValue)
    (h : ∀ items, data ≠ JValue.arr items) :
    plot_markers_on_map data =
      { markers := [], center := none, zoom := none, msg := PlotMsg.emptyOrNotList } := by
  cases data with
  | arr items => exact absurd rfl (h items)
  | null => rfl
  | bool b => rfl
  | num q => rfl
  | str s => rfl
  | obj f => rfl

lemma final_analysis_worker_st (decode : List Char → Option JValue)
    (send : SendOutcome) (s : AppState) :
    (final_analysis_worker decode send s).st = { s with state := Mode.IDLE } := by
  by_cases hcs : s.chat_session = none
  · simp [final_analysis_worker, hcs, finalize_analysis_ui]
  · cases hfr : s.captured_frames with
    | nil => simp [final_analysis_worker, hcs, hfr, finalize_analysis_ui]
    | cons f fs => cases send <;> simp [final_analysis_worker, hcs, hfr, finalize_analysis_ui]

lemma counterInv_applyCmd (s : AppState) (c : Cmd) (h : counterInv s) :
    counterInv (applyCmd s c) := by
  cases c with
  | start hh =>
    by_cases hn : s.chat_session.isNone
    · simp [applyCmd, start_session, hn, counterInv]
    · simpa [applyCmd, start_session, hn, counterInv] using h
  | toggle =>
    cases hst : s.state <;>
      simpa [applyCmd, toggle_pause_resume, hst, counterInv] using h
  | cycle cap ok =>
    by_cases hg : s.state ≠ Mode.RECORDING ∨ s.chat_session = none
    · simpa [applyCmd, send_frame_worker, hg, counterInv] using h
    · cases cap with
      | none => simpa [applyCmd, send_frame_worker, hg, counterInv] using h
      | some img =>
        cases ok with
        | false => simpa [applyCmd, send_frame_worker, hg, counterInv] using h
        | true =>
          simp only [counterInv] at h
          simp [applyCmd, send_frame_worker, hg, counterInv, h]
  | stopCmd =>
    by_cases hg : s.state = Mode.RECORDING ∨ s.state = Mode.PAUSED
    · simpa [applyCmd, stop_and_analyze, hg, counterInv] using h
    · simpa [applyCmd, stop_and_analyze, hg, counterInv] using h
  | analyze d snd =>
    show counterInv (final_analysis_worker d snd s).st
    rw [final_analysis_worker_st]
    exact h
  | clear =>
    by_cases hg : s.state ≠ Mode.IDLE ∧ s.state ≠ Mode.ANALYZING
    · simpa [applyCmd, clear_history, hg, counterInv] using h
    · simp [applyCmd, clear_history, hg, counterInv]

/-- C1 counterexample: issued while the state is ANALYZING — a state
other than IDLE — `clear_history` is not rejected: no warning is shown,
the session handle is destroyed and the frame sequence is emptied, so
the claim that clear is a warned no-op in every non-IDLE state is false
on the code. -/
theorem clear_during_analyzing_not_rejected :
    (clear_history { chat_session := some 0, captured_frames := [7], frame_count := 1,
                     state := Mode.ANALYZING }).warned = false ∧
    (clear_history { chat_session := some 0, captured_frames := [7], frame_count := 1,
                     state := Mode.ANALYZING }).st.chat_session = none ∧
    (clear_history { chat_session := some 0, captured_frames := [7], frame_count := 1,
                     state := Mode.ANALYZING }).st.captured_frames = [] := by
  decide

/-- C1 (amended): `clear` is rejected as a no-op with a user-visible
warning exactly in the states RECORDING and PAUSED; issued in IDLE or in
ANALYZING it destroys the session handle, empties the frame sequence,
resets the counter to 0 and leaves the state at IDLE. -/
theorem clear_history_guard_correct (s : AppState) :
    ((s.state = Mode.RECORDING ∨ s.state = Mode.PAUSED) →
      (clear_history s).warned = true ∧ (clear_history s).st = s) ∧
    ((s.state = Mode.IDLE ∨ s.state = Mode.ANALYZING) →
      (clear_history s).warned = false ∧
      (clear_history s).st =
        { chat_session := none, captured_frames := [], frame_count := 0,
          state := Mode.IDLE }) := by
  constructor
  · rintro (h | h) <;> simp [clear_history, h]
  · rintro (h | h) <;> simp [clear_history, h]

/-- C1 witness: the amended theorem applied at a concrete RECORDING
state shows the rejection, and at a concrete IDLE state the reset. -/
theorem clear_history_guard_witness :
    (clear_history { chat_session := some 1, captured_frames := [2], frame_count := 1,
                     state := Mode.RECORDING }).warned = true ∧
    (clear_history { chat_session := some 1, captured_frames := [2], frame_count := 1,
                     state := Mode.IDLE }).st.frame_count = 0 :=
  ⟨((clear_history_guard_correct _).1 (Or.inl rfl)).1,
   by rw [((clear_history_guard_correct _).2 (Or.inl rfl)).2]⟩

/-- C2: along every operation sequence from the initial state — capture
cycles with succeeding or failing sends, start, stop, final analysis,
clear — the frame counter equals the length of the frame sequence. -/
theorem frame_count_eq_frames_length (cs : List Cmd) :
    (runOps initialState cs).frame_count =
      (runOps initialState cs).captured_frames.length := by
  have H : ∀ cs1 : List Cmd, ∀ s1 : AppState, counterInv s1 → counterInv (runOps s1 cs1) := by
    intro cs1
    induction cs1 with
    | nil => intro s1 h; exact h
    | cons c rest ih => intro s1 h; exact ih (applyCmd s1 c) (counterInv_applyCmd s1 c h)
  exact H cs initialState rfl

/-- C3: whenever the reply contains the start delimiter strictly before
the end delimiter and the enclosed span (trimmed) decodes as a list of N
wire-format records, the parser puts the pre-delimiter substring
(trimmed) on the analysis channel and plots exactly N candidates, in
input order, ranked 1..N by list position. -/
theorem parse_roundtrip_ranked (decode : List Char → Option JValue)
    (t : List Char) (si ei : Nat) (items : List JValue)
    (hdelim : delimitersOk t = some (si, ei))
    (hdec : decode (jsonSpanOf t si ei) = some (JValue.arr items))
    (hvalid : ∀ x ∈ items, specValidRecord x = true) :
    (parseReply decode t).1 = AnalysisMsg.analysisText (analysisPartOf t si) ∧
    ∃ p, (parseReply decode t).2 = CoordsMsg.plotted p ∧
      p.markers = items.enum.map (fun pr => (pr.1 + 1, coordsOf pr.2)) ∧
      p.markers.length = items.length := by
  have hmark := plot_markers_arr_all_valid items hvalid
  refine ⟨by simp [parseReply, hdelim, hdec], plot_markers_on_map (JValue.arr items),
    by simp [parseReply, hdelim, hdec], hmark, ?_⟩
  rw [hmark]
  simp

/-- C3 witness: a reply with both delimiters in order and a decoder
returning a valid 2-record list plots exactly 2 ranked candidates. -/
theorem parse_roundtrip_ranked_witness :
    ∃ p, (parseReply (fun _ => some (JValue.arr [recA, recB])) tW3).2 =
        CoordsMsg.plotted p ∧ p.markers.length = 2 := by
  obtain ⟨h1, p, hp, hm, hl⟩ :=
    parse_roundtrip_ranked (fun _ => some (JValue.arr [recA, recB])) tW3 2 20
      [recA, recB] (by decide) rfl (by decide)
  exact ⟨p, hp, by rw [hl]; rfl⟩

/-- C4: on a decoded list each plotted record keeps its 1-based list
position as rank and invalid records are skipped individually (the
marker list is the rank-tagged filter of the coercible records); the
view is centered, at zoom 10, on the first plotted marker; a non-empty
marker list is reported with its count; an input that is not a list is
an all-empty outcome, and whenever nothing was plotted the report is
one of the two no-coordinates messages. -/
theorem plot_markers_spec (data : JValue) :
    (∀ items, data = JValue.arr items →
      (plot_markers_on_map data).markers =
        items.enum.filterMap (fun pr => (markerOf pr.2).map (fun m => (pr.1 + 1, m)))) ∧
    ((plot_markers_on_map data).center =
      ((plot_markers_on_map data).markers.head?).map (fun m => m.2)) ∧
    ((plot_markers_on_map data).zoom =
      ((plot_markers_on_map data).markers.head?).map (fun _ => 10)) ∧
    (∀ items, data = JValue.arr items →
      (plot_markers_on_map data).markers ≠ [] →
      (plot_markers_on_map data).msg =
        PlotMsg.plottedCount (plot_markers_on_map data).markers.length) ∧
    ((plot_markers_on_map data).markers = [] →
      (plot_markers_on_map data).msg = PlotMsg.noValidCoords ∨
      (plot_markers_on_map data).msg = PlotMsg.emptyOrNotList) ∧
    ((∀ items, data ≠ JValue.arr items) →
      plot_markers_on_map data =
        { markers := [], center := none, zoom := none,
          msg := PlotMsg.emptyOrNotList }) := by
  refine ⟨?_, (plot_markers_center_zoom data).1, (plot_markers_center_zoom data).2,
    ?_, plot_markers_msg_empty data, plot_markers_not_list data⟩
  · intro items h; subst h; exact plot_markers_markers_eq items
  · intro items h hm; subst h; exact plot_markers_msg_plotted items hm

/-- C4 witness: the list holding an invalid record before a valid one
plots exactly one marker, ranked 2 per its original position, and the
reported count is the marker-list length 1. -/
theorem plot_markers_spec_witness :
    (plot_markers_on_map (JValue.arr [c4bad, c4good])).msg =
      PlotMsg.plottedCount (plot_markers_on_map (JValue.arr [c4bad, c4good])).markers.length ∧
    (plot_markers_on_map (JValue.arr [c4bad, c4good])).markers = [(2, 5, 6)] := by
  constructor
  · exact (plot_markers_spec (JValue.arr [c4bad, c4good])).2.2.2.1
      [c4bad, c4good] rfl (by decide)
  · decide

/-- C5: when the start delimiter is absent, the end delimiter is
absent, or the start does not come strictly before the end (all three
are exactly `delimitersOk t = none`), the whole reply — unstripped — is
shown on the analysis channel, the coordinates channel gets the
no-structured-data warning, and nothing is plotted. -/
theorem missing_delimiters_free_text (decode : List Char → Option JValue)
    (t : List Char) (h : delimitersOk t = none) :
    (parseReply decode t).1 = AnalysisMsg.analysisText t ∧
    (parseReply decode t).2 = CoordsMsg.noStructuredData ∧
    ∀ p, (parseReply decode t).2 ≠ CoordsMsg.plotted p := by
  refine ⟨?_, ?_, ?_⟩ <;> simp [parseReply, h]

/-- C5 witness: a reply with no delimiters at all is passed through as
free text with the warning. -/
theorem missing_delimiters_free_text_witness :
    (parseReply (fun _ => none) "just a description".toList).1 =
      AnalysisMsg.analysisText "just a description".toList ∧
    (parseReply (fun _ => none) "just a description".toList).2 =
      CoordsMsg.noStructuredData :=
  ⟨(missing_delimiters_free_text (fun _ => none) "just a description".toList
      (by decide)).1,
   (missing_delimiters_free_text (fun _ => none) "just a description".toList
      (by decide)).2.1⟩

/-- C6: with well-placed delimiters but an undecodable span, the
coordinates channel receives the decode-error report carrying the raw
trimmed block verbatim, nothing is plotted, and the analysis channel
still receives the trimmed pre-delimiter free text. -/
theorem decode_failure_reports_raw_block (decode : List Char → Option JValue)
    (t : List Char) (si ei : Nat)
    (hdelim : delimitersOk t = some (si, ei))
    (hdec : decode (jsonSpanOf t si ei) = none) :
    (parseReply decode t).2 = CoordsMsg.decodeError (jsonSpanOf t si ei) ∧
    (parseReply decode t).1 = AnalysisMsg.analysisText (analysisPartOf t si) ∧
    ∀ p, (parseReply decode t).2 ≠ CoordsMsg.plotted p := by
  refine ⟨?_, ?_, ?_⟩ <;> simp [parseReply, hdelim, hdec]

/-- C6 witness: the truncated block between valid delimiters is
reported back raw while the pre-delimiter text reaches the analysis
channel. -/
theorem decode_failure_reports_raw_block_witness :
    (parseReply (fun _ => none) tW6).2 =
      CoordsMsg.decodeError (jsonSpanOf tW6 6 26) ∧
    (parseReply (fun _ => none) tW6).1 =
      AnalysisMsg.analysisText (analysisPartOf tW6 6) :=
  ⟨(decode_failure_reports_raw_block (fun _ => none) tW6 6 26 (by decide) rfl).1,
   (decode_failure_reports_raw_block (fun _ => none) tW6 6 26 (by decide) rfl).2.1⟩

/-- C7: the frame is appended and the counter incremented only when the
send succeeded (and the cycle was live); a failed capture or a raising
send leaves the state untouched for that cycle, and at most one send —
no retry — is ever attempted. -/
theorem send_cycle_append_only_on_success (captured : Option Nat) (sendOk : Bool)
    (s : AppState) :
    ((captured = none ∨ sendOk = false) →
      (send_frame_worker captured sendOk s).st = s) ∧
    (∀ img, captured = some img → sendOk = true → s.state = Mode.RECORDING →
      s.chat_session ≠ none →
      (send_frame_worker captured sendOk s).st.captured_frames =
        s.captured_frames ++ [img] ∧
      (send_frame_worker captured sendOk s).st.frame_count = s.frame_count + 1) ∧
    (send_frame_worker captured sendOk s).sendsAttempted ≤ 1 := by
  refine ⟨?_, ?_, ?_⟩
  · intro h
    by_cases hg : s.state ≠ Mode.RECORDING ∨ s.chat_session = none
    · simp [send_frame_worker, hg]
    · rcases h with h | h
      · subst h; simp [send_frame_worker, hg]
      · subst h; cases captured <;> simp [send_frame_worker, hg]
  · intro img hc hok hst hcs
    subst hc; subst hok
    constructor <;> simp [send_frame_worker, hst, hcs]
  · by_cases hg : s.state ≠ Mode.RECORDING ∨ s.chat_session = none
    · simp [send_frame_worker, hg]
    · cases captured <;> cases sendOk <;> simp [send_frame_worker, hg]

/-- C7 witness: a successful cycle at a concrete RECORDING state
appends the captured frame, and a failed capture leaves the initial
state untouched. -/
theorem send_cycle_append_only_on_success_witness :
    (send_frame_worker (some 9) true
      { chat_session := some 1, captured_frames := [4], frame_count := 1,
        state := Mode.RECORDING }).st.captured_frames = [4, 9] ∧
    (send_frame_worker none true initialState).st = initialState :=
  ⟨by rw [((send_cycle_append_only_on_success (some 9) true
      { chat_session := some 1, captured_frames := [4], frame_count := 1,
        state := Mode.RECORDING }).2.1 9 rfl rfl rfl (by decide)).1]; rfl,
   (send_cycle_append_only_on_success none true initialState).1 (Or.inl rfl)⟩

/-- C8: if no session handle exists or the frame sequence is empty, the
final-analysis worker reports the corresponding terminal error on both
channels, ends in IDLE with nothing else changed, and never invokes the
Session Client. -/
theorem final_analysis_guard (decode : List Char → Option JValue)
    (send : SendOutcome) (s : AppState)
    (h : s.chat_session = none ∨ s.captured_frames = []) :
    (final_analysis_worker decode send s).clientInvoked = false ∧
    (final_analysis_worker decode send s).st = { s with state := Mode.IDLE } ∧
    ((final_analysis_worker decode send s).analysisMsg = AnalysisMsg.noSessionError ∧
       (final_analysis_worker decode send s).coordsMsg = CoordsMsg.noSessionError ∨
     (final_analysis_worker decode send s).analysisMsg = AnalysisMsg.noFramesError ∧
       (final_analysis_worker decode send s).coordsMsg = CoordsMsg.noFramesError) := by
  by_cases hcs : s.chat_session = none
  · refine ⟨?_, ?_, Or.inl ⟨?_, ?_⟩⟩ <;>
      simp [final_analysis_worker, hcs, finalize_analysis_ui]
  · rcases h with h | h
    · exact absurd h hcs
    · refine ⟨?_, ?_, Or.inr ⟨?_, ?_⟩⟩ <;>
        simp [final_analysis_worker, hcs, h, finalize_analysis_ui]

/-- C8 witness: stop with a session but no captured frames ends in IDLE
without invoking the Session Client. -/
theorem final_analysis_guard_witness :
    (final_analysis_worker (fun _ => none) SendOutcome.apiError
      { chat_session := some 3, captured_frames := [], frame_count := 0,
        state := Mode.ANALYZING }).clientInvoked = false ∧
    (final_analysis_worker (fun _ => none) SendOutcome.apiError
      { chat_session := some 3, captured_frames := [], frame_count := 0,
        state := Mode.ANALYZING }).st.state = Mode.IDLE :=
  ⟨(final_analysis_guard (fun _ => none) SendOutcome.apiError
      { chat_session := some 3, captured_frames := [], frame_count := 0,
        state := Mode.ANALYZING } (Or.inr rfl)).1,
   by rw [(final_analysis_guard (fun _ => none) SendOutcome.apiError
      { chat_session := some 3, captured_frames := [], frame_count := 0,
        state := Mode.ANALYZING } (Or.inr rfl)).2.1]⟩

/-- C9: the final-analysis worker always ends in IDLE with the session
handle and frame sequence exactly as they were; no operation other than
`clear` ever removes an existing handle or drops frames (handles are
preserved and frame sequences only extended); and a subsequent `clear`
from the resulting IDLE state is what removes them. -/
theorem analysis_retains_session_and_frames
    (decode : List Char → Option JValue) (send : SendOutcome) (s : AppState) :
    (final_analysis_worker decode send s).st.state = Mode.IDLE ∧
    (final_analysis_worker decode send s).st.chat_session = s.chat_session ∧
    (final_analysis_worker decode send s).st.captured_frames = s.captured_frames ∧
    (∀ s1 : AppState, ∀ c : Cmd, c ≠ Cmd.clear → s1.chat_session.isSome →
      (applyCmd s1 c).chat_session = s1.chat_session ∧
      ∃ t, (applyCmd s1 c).captured_frames = s1.captured_frames ++ t) ∧
    ((clear_history (final_analysis_worker decode send s).st).st.chat_session = none ∧
     (clear_history (final_analysis_worker decode send s).st).st.captured_frames = []) := by
  have hst := final_analysis_worker_st decode send s
  refine ⟨by rw [hst], by rw [hst], by rw [hst], ?_, ?_, ?_⟩
  · intro s1 c hc hs
    cases c with
    | start hh =>
      have hn : s1.chat_session.isNone = false := by
        cases hcs : s1.chat_session
        · rw [hcs] at hs; exact absurd hs (by simp)
        · rfl
      exact ⟨by simp [applyCmd, start_session, hn], [],
        by simp [applyCmd, start_session, hn]⟩
    | toggle =>
      cases hm : s1.state <;>
        exact ⟨by simp [applyCmd, toggle_pause_resume, hm], [],
          by simp [applyCmd, toggle_pause_resume, hm]⟩
    | cycle cap ok =>
      by_cases hg : s1.state ≠ Mode.RECORDING ∨ s1.chat_session = none
      · exact ⟨by simp [applyCmd, send_frame_worker, hg], [],
          by simp [applyCmd, send_frame_worker, hg]⟩
      · cases cap with
        | none =>
          exact ⟨by simp [applyCmd, send_frame_worker, hg], [],
            by simp [applyCmd, send_frame_worker, hg]⟩
        | some img =>
          cases ok with
          | false =>
            exact ⟨by simp [applyCmd, send_frame_worker, hg], [],
              by simp [applyCmd, send_frame_worker, hg]⟩
          | true =>
            exact ⟨by simp [applyCmd, send_frame_worker, hg], [img],
              by simp [applyCmd, send_frame_worker, hg]⟩
    | stopCmd =>
      by_cases hg : s1.state = Mode.RECORDING ∨ s1.state = Mode.PAUSED <;>
        exact ⟨by simp [applyCmd, stop_and_analyze, hg], [],
          by simp [applyCmd, stop_and_analyze, hg]⟩
    | analyze d snd =>
      have h1 := final_analysis_worker_st d snd s1
      exact ⟨by show (final_analysis_worker d snd s1).st.chat_session = _; rw [h1], [],
        by show (final_analysis_worker d snd s1).st.captured_frames = _; rw [h1]; simp⟩
    | clear => exact absurd rfl hc
  · rw [hst]; simp [clear_history]
  · rw [hst]; simp [clear_history]

/-- C9 witness: after a failing final analysis on a concrete state the
handle and frames survive, and a subsequent start keeps the same
handle. -/
theorem analysis_retains_session_and_frames_witness :
    (final_analysis_worker (fun _ => none) SendOutcome.apiError
      s9analyzing).st.chat_session = some 2 ∧
    (applyCmd s9idle (Cmd.start 7)).chat_session = some 2 :=
  ⟨(analysis_retains_session_and_frames (fun _ => none) SendOutcome.apiError
      s9analyzing).2.1,
   ((analysis_retains_session_and_frames (fun _ => none) SendOutcome.apiError
      s9analyzing).2.2.2.1 s9idle (Cmd.start 7)
      (fun hEq => Cmd.noConfusion hEq) rfl).1⟩

/-- C10 counterexample: in a successful capture-and-send cycle both the
frame sequence and the frame counter are mutated directly on the
background worker thread, so the claim that the shared trio is mutated
only from the cooperative loop's thread is false on the code. -/
theorem background_thread_mutates_frames :
    (ExecThread.background, SharedVar.frames) ∈
      send_frame_worker_mutations true true true ∧
    (ExecThread.background, SharedVar.counter) ∈
      send_frame_worker_mutations true true true := by
  decide

/-- C10 (amended): the state flag is mutated only from the cooperative
loop's thread, and every mutation performed by the command handlers and
by the final-analysis worker is on the main thread; but a successful
capture-and-send cycle mutates the frame sequence and the frame counter
directly on the background worker thread, marshalling only the display
refresh back to the loop. -/
theorem mutation_thread_discipline :
    (∀ g c ok : Bool, ∀ e ∈ send_frame_worker_mutations g c ok,
      e.2 = SharedVar.stateFlag → e.1 = ExecThread.main) ∧
    (∀ b : Bool, ∀ e ∈ start_session_mutations b, e.1 = ExecThread.main) ∧
    (∀ m : Mode, ∀ e ∈ toggle_pause_resume_mutations m, e.1 = ExecThread.main) ∧
    (∀ b : Bool, ∀ e ∈ stop_and_analyze_mutations b, e.1 = ExecThread.main) ∧
    (∀ b : Bool, ∀ e ∈ clear_history_mutations b, e.1 = ExecThread.main) ∧
    (∀ e ∈ final_analysis_worker_mutations, e.1 = ExecThread.main) ∧
    send_frame_worker_mutations true true true =
      [(ExecThread.background, SharedVar.frames),
       (ExecThread.background, SharedVar.counter)] := by
  refine ⟨?_, ?_, ?_, ?_, ?_, ?_, rfl⟩
  · intro g c ok
    cases g <;> cases c <;> cases ok <;> decide
  · intro b; cases b <;> decide
  · intro m; cases m <;> decide
  · intro b; cases b <;> decide
  · intro b; cases b <;> decide
  · decide

/-- C10 witness: the amended theorem applied to the one mutation of the
final-analysis path shows it runs on the main thread. -/
theorem mutation_thread_discipline_witness :
    ((ExecThread.main, SharedVar.stateFlag) : ExecThread × SharedVar).1 =
      ExecThread.main :=
  mutation_thread_discipline.2.2.2.2.2.1
    (ExecThread.main, SharedVar.stateFlag) (by decide)
